import Mathlib

/- Verification of the FW_NL_GuidanceSystem engine of FixedWing_NAPS.py, a
   fixed-wing nonlinear aircraft performance simulation.

   Shallow embedding conventions:
   - machine floats are modelled as rationals;
   - Python history lists grow by append at the right end and are read with
     xs[-1]; here they are stored most-recent-first, so append is List.cons,
     xs[-1] is List.headD xs 0, and xs[0] is List.getLastD xs 0;
   - the in-place pattern append-then-clamp-the-last-element is modelled as
     clamp-then-cons, which produces the same list;
   - scipy.integrate.solve_ivp with an explicit adaptive Runge-Kutta method
     is modelled by rkSolve: an explicit Runge-Kutta step (any Butcher
     tableau) for each sub-interval of the partition that the step-size
     controller chose.  For a right-hand side that does not depend on the
     integration variable this equals a single extrapolation step whenever
     the tableau weights sum to one (rkSolve_const below), independently of
     the partition, so those integrations are embedded by their closed form. -/

namespace FWNAPS

/-- Modelled from the spec: the vehicle performance envelope is held by the
class FixedWingVehicle of vehicle/FixedWingVehicle.py, which is not under
src/; only the constants read by the guidance engine are modelled here. -/
structure FixedWingVehicle where
  Kf : ℚ
  omega_T : ℚ
  omega_L : ℚ
  omega_mu : ℚ
  T_max : ℚ
  K_Lmax : ℚ
  mu_max : ℚ
  C_Do : ℚ
  C_Lalpha : ℚ
  alpha_o : ℚ
  wing_area : ℚ
  aspect_r : ℚ
  wing_eff : ℚ

/-- The TF_constants dictionary of PI guidance transfer-function gains. -/
structure TFConstants where
  K_Tp : ℚ
  K_Ti : ℚ
  K_Lp : ℚ
  K_Li : ℚ
  K_mu_p : ℚ

/-- Modelled from the spec: the utils module and numpy are not under src/.
Airspeed is recomputed algebraically by utils.wind_vector from inertial
velocity, flight-path angle and heading, and the physical constants
(gravity, air density, mean Earth radius, pi) and trigonometric functions
are left abstract; no claim depends on their values. -/
structure Env where
  sin : ℚ → ℚ
  cos : ℚ → ℚ
  wind_vector : ℚ → ℚ → ℚ → ℚ
  const_gravity : ℚ
  const_density : ℚ
  Re_bar : ℚ
  pi : ℚ

/-- The InitialConditions dictionary handed to FW_NL_GuidanceSystem. -/
structure InitialConditions where
  v_BN_W : ℚ
  h : ℚ
  gamma : ℚ
  sigma : ℚ
  lat : ℚ
  lon : ℚ
  v_WN_N : ℚ × ℚ × ℚ
  weight : ℚ

/-- The inner class userCommand: current commanded trajectory plus its
append-only histories. -/
structure UserCommand where
  v_BN_W : ℚ
  gamma : ℚ
  sigma : ℚ
  airspeed : ℚ
  v_BN_W_history : List ℚ
  gamma_history : List ℚ
  sigma_history : List ℚ
  airspeed_history : List ℚ

/-- userCommand.save_history: append the current command to every history. -/
def UserCommand.save_history (c : UserCommand) : UserCommand :=
  { c with
    v_BN_W_history := c.v_BN_W :: c.v_BN_W_history
    gamma_history := c.gamma :: c.gamma_history
    sigma_history := c.sigma :: c.sigma_history
    airspeed_history := c.airspeed :: c.airspeed_history }

/-- The mutable state of a FW_NL_GuidanceSystem instance: vehicle envelope,
gains, step size, the time-indexed histories (most-recent-first), the
commanded trajectory, the two integral memories xT and xL and the three
persisted error terms. -/
structure GuidState where
  Vehicle : FixedWingVehicle
  K_Tp : ℚ
  K_Ti : ℚ
  K_Lp : ℚ
  K_Li : ℚ
  K_mu_p : ℚ
  dt : ℚ
  time : List ℚ
  v_BN_W : List ℚ
  h : List ℚ
  gamma : List ℚ
  sigma : List ℚ
  lat : List ℚ
  lon : List ℚ
  v_WN_N : List (ℚ × ℚ × ℚ)
  weight : List ℚ
  mass : List ℚ
  airspeed : List ℚ
  command : UserCommand
  v_BN_W_c_hist : List ℚ
  gamma_c_hist : List ℚ
  sigma_c_hist : List ℚ
  V_err : ℚ
  xT : ℚ
  hdot_err : ℚ
  Tc : ℚ
  Thrust : List ℚ
  xL : ℚ
  Lc : ℚ
  Lift : List ℚ
  alpha_c : List ℚ
  h_c : List ℚ
  sigma_err : ℚ
  alpha : List ℚ
  drag : List ℚ
  mu : List ℚ

/-- Upper saturation: the source pattern `if x > limit: x = limit`. -/
def clampAbove (x limit : ℚ) : ℚ := if x > limit then limit else x

/-- numpy sign as used in the bank-angle saturation. -/
def np_sign (x : ℚ) : ℚ := if x < 0 then -1 else if x = 0 then 0 else 1

/-- _calculateAlpha. -/
def calculateAlpha (env : Env) (s : GuidState) : ℚ :=
  2 * s.Lift.headD 0 /
      (env.const_density * s.Vehicle.wing_area * s.Vehicle.C_Lalpha * (s.airspeed.headD 0) ^ 2)
    + s.Vehicle.alpha_o

/-- _calculateDrag. -/
def calculateDrag (env : Env) (s : GuidState) : ℚ :=
  1 / 2 * env.const_density * s.Vehicle.wing_area * s.Vehicle.C_Do * (s.airspeed.headD 0) ^ 2
    + 2 * (s.Lift.headD 0) ^ 2 /
        (env.const_density * s.Vehicle.wing_area * env.pi * s.Vehicle.aspect_r
          * s.Vehicle.wing_eff * (s.airspeed.headD 0) ^ 2)

/-- _calculateMu: purely proportional bank-angle law. -/
def calculateMu (env : Env) (s : GuidState) : ℚ :=
  s.K_mu_p * (s.command.v_BN_W / env.const_gravity) * s.sigma_err

/-- ODE right-hand side __xT_dot_ode: reads only the committed mass and the
persisted velocity error, never its integration variable. -/
def xT_dot_ode (s : GuidState) (t xTv : ℚ) : ℚ := s.mass.headD 0 * s.V_err

/-- ODE right-hand side __T_dot_ode: the thrust actuator first-order lag.
Note that it reads its integration variable T. -/
def T_dot_ode (s : GuidState) (t T : ℚ) : ℚ :=
  -1 * s.Vehicle.omega_T * T + s.Vehicle.omega_T * s.Tc

/-- ODE right-hand side __xL_dot_ode: reads only the committed mass and the
persisted climb-rate error. -/
def xL_dot_ode (s : GuidState) (t xLv : ℚ) : ℚ := s.mass.headD 0 * s.hdot_err

/-- ODE right-hand side __L_dot_ode: the lift actuator first-order lag.
Note that it reads its integration variable L. -/
def L_dot_ode (s : GuidState) (t L : ℚ) : ℚ :=
  -1 * s.Vehicle.omega_L * L + s.Vehicle.omega_L * s.Lc

/-- ODE right-hand side __m_dot_ode: fuel burn from the committed thrust. -/
def m_dot_ode (s : GuidState) (t m : ℚ) : ℚ :=
  -1 * s.Vehicle.Kf * s.Thrust.headD 0

/-- ODE right-hand side __eom_ode for (v_BN_W, gamma, sigma): reads only
committed state, never its integration variable y. -/
def eom_ode (env : Env) (s : GuidState) (t : ℚ) (y : ℚ × ℚ × ℚ) : ℚ × ℚ × ℚ :=
  ((s.Thrust.headD 0 - s.drag.headD 0) / s.mass.headD 0
      - env.const_gravity * env.sin (s.gamma.headD 0),
   1 / s.v_BN_W.headD 0 *
      (s.Lift.headD 0 * env.cos (s.mu.headD 0) / s.mass.headD 0
        - env.const_gravity * env.cos (s.gamma.headD 0)),
   1 / (s.v_BN_W.headD 0 * env.cos (s.gamma.headD 0)) *
      (s.Lift.headD 0 * env.sin (s.mu.headD 0) / s.mass.headD 0))

/-- ODE right-hand side __ecef_ode for (lat, lon, h): reads only committed
state, never its integration variable y. -/
def ecef_ode (env : Env) (s : GuidState) (t : ℚ) (y : ℚ × ℚ × ℚ) : ℚ × ℚ × ℚ :=
  (s.v_BN_W.headD 0 * env.cos (s.gamma.headD 0) * env.cos (s.sigma.headD 0)
      / (env.Re_bar + s.h.headD 0),
   s.v_BN_W.headD 0 * env.cos (s.gamma.headD 0) * env.sin (s.sigma.headD 0)
      / ((env.Re_bar + s.h.headD 0) * env.cos (s.lat.headD 0)),
   s.v_BN_W.headD 0 * env.sin (s.gamma.headD 0))

/-- Butcher tableau of an explicit Runge-Kutta scheme, modelling the
one-step stage structure of scipy.integrate.solve_ivp with method RK45. -/
structure ButcherTableau where
  a : List (List ℚ)
  b : List ℚ
  c : List ℚ

/-- A tableau whose quadrature weights sum to one (every consistent RK
scheme, in particular RK45) with well-formed stage counts. -/
def ButcherTableau.consistent (tab : ButcherTableau) : Prop :=
  tab.b.sum = 1 ∧ tab.b.length = tab.a.length ∧ tab.c.length = tab.a.length

/-- Dot product of coefficient and stage lists, short list zero-padded. -/
def dotProd : List ℚ → List ℚ → ℚ
  | [], _ => 0
  | _ :: _, [] => 0
  | x :: xs, y :: ys => x * y + dotProd xs ys

/-- Stage values k_i of one explicit Runge-Kutta step, accumulated left to
right; row i of the tableau only ever sees the stages computed before it. -/
def rkStagesAux (f : ℚ → ℚ → ℚ) (t y h : ℚ) : List (List ℚ × ℚ) → List ℚ → List ℚ
  | [], ks => ks
  | (ai, ci) :: rows, ks =>
      rkStagesAux f t y h rows (ks ++ [f (t + ci * h) (y + h * dotProd ai ks)])

/-- One explicit Runge-Kutta step of size h from (t, y). -/
def rkStep (tab : ButcherTableau) (f : ℚ → ℚ → ℚ) (t y h : ℚ) : ℚ :=
  y + h * dotProd tab.b (rkStagesAux f t y h (tab.a.zip tab.c) [])

/-- One run of the adaptive solver over an interval: an explicit RK step for
each sub-interval of the partition the step-size controller chose. -/
def rkSolve (tab : ButcherTableau) (f : ℚ → ℚ → ℚ) : List ℚ → ℚ → ℚ → ℚ
  | [], _, y => y
  | hstep :: rest, t, y => rkSolve tab f rest (t + hstep) (rkStep tab f t y hstep)

/-- The tableau and interval partition of one solve_ivp call. -/
structure RKRun where
  tab : ButcherTableau
  hs : List ℚ

/-- FW_NL_GuidanceSystem.__init__. -/
def init (env : Env) (vehicle : FixedWingVehicle) (tf : TFConstants)
    (ic : InitialConditions) (time dt : ℚ) : GuidState :=
  let airspeed0 := env.wind_vector ic.v_BN_W ic.gamma ic.sigma
  let cmd : UserCommand :=
    { v_BN_W := ic.v_BN_W, gamma := ic.gamma, sigma := ic.sigma, airspeed := airspeed0,
      v_BN_W_history := [ic.v_BN_W], gamma_history := [ic.gamma],
      sigma_history := [ic.sigma], airspeed_history := [airspeed0] }
  let sPre : GuidState :=
    { Vehicle := vehicle, K_Tp := tf.K_Tp, K_Ti := tf.K_Ti, K_Lp := tf.K_Lp,
      K_Li := tf.K_Li, K_mu_p := tf.K_mu_p, dt := dt, time := [time],
      v_BN_W := [ic.v_BN_W], h := [ic.h], gamma := [ic.gamma], sigma := [ic.sigma],
      lat := [ic.lat], lon := [ic.lon], v_WN_N := [ic.v_WN_N], weight := [ic.weight],
      mass := [ic.weight / env.const_gravity], airspeed := [airspeed0], command := cmd,
      v_BN_W_c_hist := [0], gamma_c_hist := [0], sigma_c_hist := [0],
      V_err := 0, xT := 0, hdot_err := 0, Tc := 0, Thrust := [0], xL := 0, Lc := 0,
      Lift := [0], alpha_c := [0], h_c := [0], sigma_err := 0,
      alpha := [], drag := [], mu := [] }
  { sPre with
    alpha := [calculateAlpha env sPre]
    drag := [calculateDrag env sPre]
    mu := [calculateMu env sPre] }

/-- setCommandTrajectory: store the new command, recompute its derived
airspeed and the three error terms against the committed state. -/
def setCommandTrajectory (env : Env) (s : GuidState)
    (velocity flight_path_angle heading : ℚ) : GuidState :=
  { s with
    command := { s.command with
      v_BN_W := velocity, gamma := flight_path_angle, sigma := heading,
      airspeed := env.wind_vector velocity flight_path_angle heading }
    V_err := velocity - s.v_BN_W.headD 0
    hdot_err := velocity * (env.sin flight_path_angle - env.sin (s.gamma.headD 0))
    sigma_err := heading - s.sigma.headD 0 }

/-- The committed scalar updates of _thrustGuidanceSystem before the
actuator-lag solve: recompute V_err, integrate the memory xT (constant
right-hand side, so the adaptive solve is the closed extrapolation step,
cf. rkSolve_const), form and saturate the thrust command Tc. -/
def thrustMid (dt : ℚ) (s : GuidState) : GuidState :=
  let V_err := s.command.v_BN_W - s.v_BN_W.headD 0
  let xT := s.xT + s.mass.headD 0 * V_err * dt
  { s with
    V_err := V_err
    xT := xT
    Tc := clampAbove (s.K_Ti * xT + s.K_Tp * s.mass.headD 0 * V_err) s.Vehicle.T_max }

/-- _thrustGuidanceSystem: the scalar updates, then the first-order thrust
actuator lag integrated by the adaptive solver, then the saturation of the
appended vehicle thrust. -/
def thrustGuidanceSystem (m : RKRun) (dt : ℚ) (s : GuidState) : GuidState :=
  let sMid := thrustMid dt s
  { sMid with
    Thrust := clampAbove
        (rkSolve m.tab (T_dot_ode sMid) m.hs (s.time.headD 0) (s.Thrust.headD 0))
        s.Vehicle.T_max :: s.Thrust }

/-- The committed scalar updates of _liftGuidanceSystem before the
actuator-lag solve: recompute hdot_err, integrate the memory xL (constant
right-hand side, closed extrapolation step), form the lift command Lc and
saturate it at L_max = v^2 * K_Lmax. -/
def liftMid (env : Env) (dt : ℚ) (s : GuidState) : GuidState :=
  let hdot_err := s.command.v_BN_W * (env.sin s.command.gamma - env.sin (s.gamma.headD 0))
  let xL := s.xL + s.mass.headD 0 * hdot_err * dt
  { s with
    hdot_err := hdot_err
    xL := xL
    Lc := clampAbove (s.K_Li * xL + s.K_Lp * s.mass.headD 0 * hdot_err)
      ((s.v_BN_W.headD 0) ^ 2 * s.Vehicle.K_Lmax) }

/-- _liftGuidanceSystem: the scalar updates, the first-order lift actuator
lag integrated by the adaptive solver with saturation at L_max, and the
algebraic commanded angle of attack and commanded altitude. -/
def liftGuidanceSystem (env : Env) (m : RKRun) (dt : ℚ) (s : GuidState) : GuidState :=
  let sMid := liftMid env dt s
  let sL := { sMid with
    Lift := clampAbove
        (rkSolve m.tab (L_dot_ode sMid) m.hs (s.time.headD 0) (s.Lift.headD 0))
        ((s.v_BN_W.headD 0) ^ 2 * s.Vehicle.K_Lmax) :: s.Lift }
  { sL with
    alpha_c := (2 * sL.Lc /
        (env.const_density * sL.Vehicle.wing_area * sL.Vehicle.C_Lalpha
          * (sL.airspeed.headD 0) ^ 2) + sL.Vehicle.alpha_o) :: sL.alpha_c
    h_c := (env.sin sL.command.gamma * sL.command.v_BN_W * (sL.time.headD 0 + dt)
        + sL.h.getLastD 0) :: sL.h_c }

/-- _headingGuidanceSystem: recompute sigma_err, purely proportional bank
angle via _calculateMu, sign-preserving saturation at mu_max; no integral
memory, no actuator lag, and dt is never used. -/
def headingGuidanceSystem (env : Env) (dt : ℚ) (s : GuidState) : GuidState :=
  let sMid := { s with sigma_err := s.command.sigma - s.sigma.headD 0 }
  let mu := calculateMu env sMid
  { sMid with
    mu := (if |mu| > s.Vehicle.mu_max then np_sign mu * s.Vehicle.mu_max else mu) :: s.mu }

/-- The guard of getGuidanceCommands, `np.nan in [command.v_BN_W,
command.gamma, command.sigma]`.  NaN is not representable among the
rationals of this embedding, and __init__ seeds the command with the finite
initial conditions, so the guard is identically false: no state reachable
through the public interface has a NaN command. -/
def commandNaNGuard (c : UserCommand) : Bool := false

/-- getGuidanceCommands: skip everything when the command is NaN, else run
the thrust, lift and heading guidance systems in order. -/
def getGuidanceCommands (env : Env) (mT mL : RKRun) (dt : ℚ) (s : GuidState) : GuidState :=
  if commandNaNGuard s.command then s
  else
    headingGuidanceSystem env dt
      (liftGuidanceSystem env mL dt (thrustGuidanceSystem mT dt s))

/-- getEquationsOfMotion_Ideal: fuel burn, algebraic alpha and drag,
translational and attitude dynamics, algebraic airspeed, geodetic
kinematics.  Every right-hand side reads only committed state, so each
adaptive solve is embedded by its closed extrapolation step
(cf. rkSolve_const). -/
def getEquationsOfMotion_Ideal (env : Env) (dt : ℚ) (s : GuidState) : GuidState :=
  let s1 := { s with
    mass := (s.mass.headD 0 + m_dot_ode s (s.time.headD 0) (s.mass.headD 0) * dt) :: s.mass }
  let s2 := { s1 with
    alpha := calculateAlpha env s1 :: s1.alpha
    drag := calculateDrag env s1 :: s1.drag }
  let d := eom_ode env s2 (s2.time.headD 0)
    (s2.v_BN_W.headD 0, s2.gamma.headD 0, s2.sigma.headD 0)
  let s3 := { s2 with
    v_BN_W := (s2.v_BN_W.headD 0 + d.1 * dt) :: s2.v_BN_W
    gamma := (s2.gamma.headD 0 + d.2.1 * dt) :: s2.gamma
    sigma := (s2.sigma.headD 0 + d.2.2 * dt) :: s2.sigma }
  let s4 := { s3 with
    airspeed := env.wind_vector (s3.v_BN_W.headD 0) (s3.gamma.headD 0) (s3.sigma.headD 0)
      :: s3.airspeed }
  let e := ecef_ode env s4 (s4.time.headD 0)
    (s4.lat.headD 0, s4.lon.headD 0, s4.h.headD 0)
  { s4 with
    lat := (s4.lat.headD 0 + e.1 * dt) :: s4.lat
    lon := (s4.lon.headD 0 + e.2.1 * dt) :: s4.lon
    h := (s4.h.headD 0 + e.2.2 * dt) :: s4.h }

/-- stepTime: one simulation step = guidance commands, equations of motion,
commanded-trajectory history append, clock advance. -/
def stepTime (env : Env) (mT mL : RKRun) (dtOpt : Option ℚ) (s : GuidState) : GuidState :=
  let dt := dtOpt.getD s.dt
  let s1 := getGuidanceCommands env mT mL dt s
  let s2 := getEquationsOfMotion_Ideal env dt s1
  let s3 := { s2 with command := s2.command.save_history }
  { s3 with time := (s3.time.headD 0 + dt) :: s3.time }

/-- The per-step solver data handed to one stepTime call. -/
structure StepParams where
  mT : RKRun
  mL : RKRun
  dt : Option ℚ

/-- A run of the simulation driver: one stepTime per element. -/
def runSteps (env : Env) : List StepParams → GuidState → GuidState
  | [], s => s
  | p :: ps, s => runSteps env ps (stepTime env p.mT p.mL p.dt s)

/-- The fourteen time-indexed histories all have length n. -/
def allHistLen (s : GuidState) (n : ℕ) : Prop :=
  s.time.length = n ∧ s.mass.length = n ∧ s.v_BN_W.length = n ∧ s.gamma.length = n ∧
  s.sigma.length = n ∧ s.lat.length = n ∧ s.lon.length = n ∧ s.h.length = n ∧
  s.airspeed.length = n ∧ s.alpha.length = n ∧ s.drag.length = n ∧ s.mu.length = n ∧
  s.Thrust.length = n ∧ s.Lift.length = n

/-- A concrete environment for witnesses and counterexamples. -/
def testEnv : Env :=
  { sin := fun _ => 0, cos := fun _ => 1, wind_vector := fun v _ _ => v,
    const_gravity := 32, const_density := 2, Re_bar := 1, pi := 3 }

/-- A concrete vehicle envelope for witnesses and counterexamples. -/
def testVehicle : FixedWingVehicle :=
  { Kf := 1 / 100, omega_T := 1, omega_L := 1, omega_mu := 1, T_max := 100,
    K_Lmax := 1, mu_max := 1, C_Do := 1, C_Lalpha := 1, alpha_o := 0,
    wing_area := 1, aspect_r := 1, wing_eff := 1 }

/-- Concrete guidance gains for witnesses and counterexamples. -/
def testTF : TFConstants := { K_Tp := 1, K_Ti := 0, K_Lp := 1, K_Li := 0, K_mu_p := 1 }

/-- Concrete initial conditions for witnesses and counterexamples. -/
def testIC : InitialConditions :=
  { v_BN_W := 10, h := 0, gamma := 0, sigma := 0, lat := 0, lon := 0,
    v_WN_N := (0, 0, 0), weight := 32 }

/-- A freshly constructed engine. -/
def testState : GuidState := init testEnv testVehicle testTF testIC 0 1

/-- The engine after commanding a full stop (velocity 0): the velocity error
is negative, so the thrust command goes negative. -/
def cexState : GuidState := setCommandTrajectory testEnv testState 0 0 0

/-- The explicit Euler tableau, the simplest consistent RK scheme. -/
def eulerTab : ButcherTableau := { a := [[]], b := [1], c := [0] }

/-- A solver run taking one Euler step over the whole interval. -/
def eulerRun : RKRun := { tab := eulerTab, hs := [1] }

/-- Default per-step solver data for witnesses. -/
def testParams : StepParams := { mT := eulerRun, mL := eulerRun, dt := none }

lemma dotProd_replicate (b : List ℚ) (d : ℚ) :
    dotProd b (List.replicate b.length d) = b.sum * d := by
  induction b with
  | nil => simp [dotProd]
  | cons x xs ih =>
      simp only [dotProd, List.length_cons, List.replicate_succ, List.sum_cons, ih]
      ring

lemma rkStagesAux_const (f : ℚ → ℚ → ℚ) (d t y h : ℚ) (hf : ∀ u v, f u v = d) :
    ∀ (rows : List (List ℚ × ℚ)) (ks : List ℚ),
      rkStagesAux f t y h rows ks = ks ++ List.replicate rows.length d := by
  intro rows
  induction rows with
  | nil => intro ks; simp [rkStagesAux]
  | cons r rows ih =>
      intro ks
      obtain ⟨ai, ci⟩ := r
      simp [rkStagesAux, hf, ih, List.replicate_succ, List.append_assoc]

lemma rkStep_const (tab : ButcherTableau) (f : ℚ → ℚ → ℚ) (d : ℚ)
    (hcons : tab.consistent) (hf : ∀ u v, f u v = d) (t y h : ℚ) :
    rkStep tab f t y h = y + h * d := by
  obtain ⟨hsum, hb, hc⟩ := hcons
  have hlen : (tab.a.zip tab.c).length = tab.b.length := by
    simp [List.length_zip, hb, hc]
  rw [rkStep, rkStagesAux_const f d t y h hf, List.nil_append, hlen,
    dotProd_replicate, hsum, one_mul]

lemma rkSolve_const (tab : ButcherTableau) (f : ℚ → ℚ → ℚ) (d : ℚ)
    (hcons : tab.consistent) (hf : ∀ u v, f u v = d) :
    ∀ (hs : List ℚ) (t y : ℚ), rkSolve tab f hs t y = y + hs.sum * d := by
  intro hs
  induction hs with
  | nil => intro t y; simp [rkSolve]
  | cons hstep rest ih =>
      intro t y
      rw [rkSolve, ih, rkStep_const tab f d hcons hf, List.sum_cons]
      ring

lemma clampAbove_le (x limit : ℚ) : clampAbove x limit ≤ limit := by
  unfold clampAbove
  split_ifs with h
  · exact le_refl limit
  · exact le_of_not_lt h

lemma abs_muClamp (x limit : ℚ) (hm : 0 ≤ limit) :
    |if |x| > limit then np_sign x * limit else x| ≤ limit := by
  split_ifs with h
  · unfold np_sign
    split_ifs with h1 h2
    · rw [neg_one_mul, abs_neg, abs_of_nonneg hm]
    · simpa using hm
    · rw [one_mul, abs_of_nonneg hm]
  · exact le_of_not_lt h

/-- C3 counterexample: the thrust actuator-lag right-hand side __T_dot_ode
does read the solver's integration variable: at the freshly constructed
test state it takes different values on the intermediate thrust values 0
and 1, so not every right-hand side reads only last-committed state. -/
theorem C3_counterexample_lag_reads_variable :
    ¬ (T_dot_ode testState 0 0 = T_dot_ode testState 0 1) := by
  norm_num [T_dot_ode, testState, init, testEnv, testVehicle, testTF, testIC]

/-- C3 (amended): the integral-memory, fuel-burn, translational/attitude
and geodetic right-hand sides are independent of the solver's integration
variable, so for them any adaptive explicit Runge-Kutta integration over a
partition of [t, t+dt] by a consistent tableau is exactly the single
extrapolation step y + f * dt; in particular xT(t+dt) = xT(t) +
mass * V_err * dt and xL(t+dt) = xL(t) + mass * hdot_err * dt.  (The
lag-filter right-hand sides are excluded: they read the integration
variable, see the counterexample.) -/
theorem C3_frozen_extrapolation (env : Env) (s : GuidState) (tab : ButcherTableau)
    (hs : List ℚ) (dt t0 y0 : ℚ) (hcons : tab.consistent) (hsum : hs.sum = dt) :
    (∀ t y yy, xT_dot_ode s t y = xT_dot_ode s t yy) ∧
    (∀ t y yy, xL_dot_ode s t y = xL_dot_ode s t yy) ∧
    (∀ t y yy, m_dot_ode s t y = m_dot_ode s t yy) ∧
    (∀ t y yy, eom_ode env s t y = eom_ode env s t yy) ∧
    (∀ t y yy, ecef_ode env s t y = ecef_ode env s t yy) ∧
    rkSolve tab (xT_dot_ode s) hs t0 y0 = y0 + s.mass.headD 0 * s.V_err * dt ∧
    rkSolve tab (xL_dot_ode s) hs t0 y0 = y0 + s.mass.headD 0 * s.hdot_err * dt ∧
    rkSolve tab (m_dot_ode s) hs t0 y0 = y0 + -1 * s.Vehicle.Kf * s.Thrust.headD 0 * dt := by
  refine ⟨fun t y yy => rfl, fun t y yy => rfl, fun t y yy => rfl,
    fun t y yy => rfl, fun t y yy => rfl, ?_, ?_, ?_⟩
  · rw [rkSolve_const tab (xT_dot_ode s) (s.mass.headD 0 * s.V_err) hcons
      (fun u v => rfl), hsum]
    ring
  · rw [rkSolve_const tab (xL_dot_ode s) (s.mass.headD 0 * s.hdot_err) hcons
      (fun u v => rfl), hsum]
    ring
  · rw [rkSolve_const tab (m_dot_ode s) (-1 * s.Vehicle.Kf * s.Thrust.headD 0) hcons
      (fun u v => rfl), hsum]
    ring

/-- Witness for C3 at the Euler tableau, the one-step partition of a unit
interval, and the freshly constructed test state. -/
theorem C3_frozen_extrapolation_witness :
    eulerTab.consistent ∧ List.sum [(1 : ℚ)] = 1 ∧
    ((∀ t y yy, xT_dot_ode testState t y = xT_dot_ode testState t yy) ∧
     (∀ t y yy, xL_dot_ode testState t y = xL_dot_ode testState t yy) ∧
     (∀ t y yy, m_dot_ode testState t y = m_dot_ode testState t yy) ∧
     (∀ t y yy, eom_ode testEnv testState t y = eom_ode testEnv testState t yy) ∧
     (∀ t y yy, ecef_ode testEnv testState t y = ecef_ode testEnv testState t yy) ∧
     rkSolve eulerTab (xT_dot_ode testState) [1] 0 5
        = 5 + testState.mass.headD 0 * testState.V_err * 1 ∧
     rkSolve eulerTab (xL_dot_ode testState) [1] 0 5
        = 5 + testState.mass.headD 0 * testState.hdot_err * 1 ∧
     rkSolve eulerTab (m_dot_ode testState) [1] 0 5
        = 5 + -1 * testState.Vehicle.Kf * testState.Thrust.headD 0 * 1) := by
  have hcons : eulerTab.consistent := by
    refine ⟨?_, ?_, ?_⟩ <;> simp [eulerTab]
  exact ⟨hcons, by norm_num,
    C3_frozen_extrapolation testEnv testState eulerTab [1] 1 0 5 hcons (by norm_num)⟩

/-- C4: in every thrust-loop evaluation the thrust command is
Tc = K_Ti * xT + K_Tp * mass * V_err, saturated only from above at T_max;
any command not exceeding T_max, in particular a negative one, is
preserved unchanged. -/
theorem C4_thrust_command_saturation (m : RKRun) (dt : ℚ) (s : GuidState) :
    ((thrustGuidanceSystem m dt s).Tc =
      if s.K_Ti * (s.xT + s.mass.headD 0 * (s.command.v_BN_W - s.v_BN_W.headD 0) * dt)
            + s.K_Tp * s.mass.headD 0 * (s.command.v_BN_W - s.v_BN_W.headD 0)
          > s.Vehicle.T_max
      then s.Vehicle.T_max
      else s.K_Ti * (s.xT + s.mass.headD 0 * (s.command.v_BN_W - s.v_BN_W.headD 0) * dt)
            + s.K_Tp * s.mass.headD 0 * (s.command.v_BN_W - s.v_BN_W.headD 0)) ∧
    (s.K_Ti * (s.xT + s.mass.headD 0 * (s.command.v_BN_W - s.v_BN_W.headD 0) * dt)
          + s.K_Tp * s.mass.headD 0 * (s.command.v_BN_W - s.v_BN_W.headD 0)
        ≤ s.Vehicle.T_max →
      (thrustGuidanceSystem m dt s).Tc =
        s.K_Ti * (s.xT + s.mass.headD 0 * (s.command.v_BN_W - s.v_BN_W.headD 0) * dt)
          + s.K_Tp * s.mass.headD 0 * (s.command.v_BN_W - s.v_BN_W.headD 0)) := by
  constructor
  · simp [thrustGuidanceSystem, thrustMid, clampAbove]
  · intro hle
    simp only [thrustGuidanceSystem, thrustMid, clampAbove]
    exact if_neg (not_lt.mpr hle)

/-- Witness for C4 at the stop command: the raw thrust command is -10,
below T_max = 100, and it is preserved unchanged (not clamped to zero). -/
theorem C4_thrust_command_witness :
    cexState.K_Ti * (cexState.xT
          + cexState.mass.headD 0 * (cexState.command.v_BN_W - cexState.v_BN_W.headD 0) * 1)
        + cexState.K_Tp * cexState.mass.headD 0
          * (cexState.command.v_BN_W - cexState.v_BN_W.headD 0)
      ≤ cexState.Vehicle.T_max ∧
    (thrustGuidanceSystem eulerRun 1 cexState).Tc = -10 := by
  have hle : cexState.K_Ti * (cexState.xT
          + cexState.mass.headD 0 * (cexState.command.v_BN_W - cexState.v_BN_W.headD 0) * 1)
        + cexState.K_Tp * cexState.mass.headD 0
          * (cexState.command.v_BN_W - cexState.v_BN_W.headD 0)
      ≤ cexState.Vehicle.T_max := by
    norm_num [cexState, setCommandTrajectory, testState, init, testEnv, testVehicle,
      testTF, testIC]
  refine ⟨hle, ((C4_thrust_command_saturation eulerRun 1 cexState).2 hle).trans ?_⟩
  norm_num [cexState, setCommandTrajectory, testState, init, testEnv, testVehicle,
    testTF, testIC]

/-- C5: setCommandTrajectory stores the three commanded values, recomputes
the derived commanded airspeed, recomputes the three error terms against
the currently committed state, and leaves the actuator histories untouched
(the command takes effect only on the next step). -/
theorem C5_setCommandTrajectory_updates (env : Env) (s : GuidState) (v fpa hdg : ℚ) :
    (setCommandTrajectory env s v fpa hdg).command.v_BN_W = v ∧
    (setCommandTrajectory env s v fpa hdg).command.gamma = fpa ∧
    (setCommandTrajectory env s v fpa hdg).command.sigma = hdg ∧
    (setCommandTrajectory env s v fpa hdg).command.airspeed = env.wind_vector v fpa hdg ∧
    (setCommandTrajectory env s v fpa hdg).V_err = v - s.v_BN_W.headD 0 ∧
    (setCommandTrajectory env s v fpa hdg).hdot_err
      = v * (env.sin fpa - env.sin (s.gamma.headD 0)) ∧
    (setCommandTrajectory env s v fpa hdg).sigma_err = hdg - s.sigma.headD 0 ∧
    (setCommandTrajectory env s v fpa hdg).Thrust = s.Thrust ∧
    (setCommandTrajectory env s v fpa hdg).Lift = s.Lift ∧
    (setCommandTrajectory env s v fpa hdg).mu = s.mu := by
  simp [setCommandTrajectory]

/-- C10: setCommandTrajectory mutates only the commanded-trajectory fields
and the three error terms; every history, both integrator memories, the
command histories, the clock and the step size are unchanged. -/
theorem C10_setCommandTrajectory_frame (env : Env) (s : GuidState) (v fpa hdg : ℚ) :
    (setCommandTrajectory env s v fpa hdg).Vehicle = s.Vehicle ∧
    (setCommandTrajectory env s v fpa hdg).K_Tp = s.K_Tp ∧
    (setCommandTrajectory env s v fpa hdg).K_Ti = s.K_Ti ∧
    (setCommandTrajectory env s v fpa hdg).K_Lp = s.K_Lp ∧
    (setCommandTrajectory env s v fpa hdg).K_Li = s.K_Li ∧
    (setCommandTrajectory env s v fpa hdg).K_mu_p = s.K_mu_p ∧
    (setCommandTrajectory env s v fpa hdg).dt = s.dt ∧
    (setCommandTrajectory env s v fpa hdg).time = s.time ∧
    (setCommandTrajectory env s v fpa hdg).v_BN_W = s.v_BN_W ∧
    (setCommandTrajectory env s v fpa hdg).h = s.h ∧
    (setCommandTrajectory env s v fpa hdg).gamma = s.gamma ∧
    (setCommandTrajectory env s v fpa hdg).sigma = s.sigma ∧
    (setCommandTrajectory env s v fpa hdg).lat = s.lat ∧
    (setCommandTrajectory env s v fpa hdg).lon = s.lon ∧
    (setCommandTrajectory env s v fpa hdg).v_WN_N = s.v_WN_N ∧
    (setCommandTrajectory env s v fpa hdg).weight = s.weight ∧
    (setCommandTrajectory env s v fpa hdg).mass = s.mass ∧
    (setCommandTrajectory env s v fpa hdg).airspeed = s.airspeed ∧
    (setCommandTrajectory env s v fpa hdg).v_BN_W_c_hist = s.v_BN_W_c_hist ∧
    (setCommandTrajectory env s v fpa hdg).gamma_c_hist = s.gamma_c_hist ∧
    (setCommandTrajectory env s v fpa hdg).sigma_c_hist = s.sigma_c_hist ∧
    (setCommandTrajectory env s v fpa hdg).xT = s.xT ∧
    (setCommandTrajectory env s v fpa hdg).Tc = s.Tc ∧
    (setCommandTrajectory env s v fpa hdg).Thrust = s.Thrust ∧
    (setCommandTrajectory env s v fpa hdg).xL = s.xL ∧
    (setCommandTrajectory env s v fpa hdg).Lc = s.Lc ∧
    (setCommandTrajectory env s v fpa hdg).Lift = s.Lift ∧
    (setCommandTrajectory env s v fpa hdg).alpha_c = s.alpha_c ∧
    (setCommandTrajectory env s v fpa hdg).h_c = s.h_c ∧
    (setCommandTrajectory env s v fpa hdg).alpha = s.alpha ∧
    (setCommandTrajectory env s v fpa hdg).drag = s.drag ∧
    (setCommandTrajectory env s v fpa hdg).mu = s.mu ∧
    (setCommandTrajectory env s v fpa hdg).command.v_BN_W_history
      = s.command.v_BN_W_history ∧
    (setCommandTrajectory env s v fpa hdg).command.gamma_history
      = s.command.gamma_history ∧
    (setCommandTrajectory env s v fpa hdg).command.sigma_history
      = s.command.sigma_history ∧
    (setCommandTrajectory env s v fpa hdg).command.airspeed_history
      = s.command.airspeed_history := by
  simp [setCommandTrajectory]

lemma stepTime_Vehicle (env : Env) (mT mL : RKRun) (dtOpt : Option ℚ) (s : GuidState) :
    (stepTime env mT mL dtOpt s).Vehicle = s.Vehicle := by
  simp [stepTime, getGuidanceCommands, commandNaNGuard, getEquationsOfMotion_Ideal,
    headingGuidanceSystem, liftGuidanceSystem, liftMid, thrustGuidanceSystem, thrustMid,
    UserCommand.save_history]

lemma stepTime_dtField (env : Env) (mT mL : RKRun) (dtOpt : Option ℚ) (s : GuidState) :
    (stepTime env mT mL dtOpt s).dt = s.dt := by
  simp [stepTime, getGuidanceCommands, commandNaNGuard, getEquationsOfMotion_Ideal,
    headingGuidanceSystem, liftGuidanceSystem, liftMid, thrustGuidanceSystem, thrustMid,
    UserCommand.save_history]

lemma stepTime_Thrust_cons (env : Env) (mT mL : RKRun) (dtOpt : Option ℚ) (s : GuidState) :
    (stepTime env mT mL dtOpt s).Thrust =
      clampAbove
        (rkSolve mT.tab (T_dot_ode (thrustMid (dtOpt.getD s.dt) s)) mT.hs
          (s.time.headD 0) (s.Thrust.headD 0))
        s.Vehicle.T_max :: s.Thrust := by
  simp [stepTime, getGuidanceCommands, commandNaNGuard, getEquationsOfMotion_Ideal,
    headingGuidanceSystem, liftGuidanceSystem, liftMid, thrustGuidanceSystem,
    UserCommand.save_history]

lemma stepTime_mass_eq (env : Env) (mT mL : RKRun) (dtOpt : Option ℚ) (s : GuidState) :
    (stepTime env mT mL dtOpt s).mass =
      (s.mass.headD 0
          + -1 * s.Vehicle.Kf * (stepTime env mT mL dtOpt s).Thrust.headD 0
            * dtOpt.getD s.dt) :: s.mass := by
  simp [stepTime, getGuidanceCommands, commandNaNGuard, getEquationsOfMotion_Ideal,
    headingGuidanceSystem, liftGuidanceSystem, liftMid, thrustGuidanceSystem, thrustMid,
    UserCommand.save_history, m_dot_ode]

lemma thrustGS_Vehicle (m : RKRun) (dt : ℚ) (s : GuidState) :
    (thrustGuidanceSystem m dt s).Vehicle = s.Vehicle := by
  simp [thrustGuidanceSystem, thrustMid]

lemma thrustGS_v_BN_W (m : RKRun) (dt : ℚ) (s : GuidState) :
    (thrustGuidanceSystem m dt s).v_BN_W = s.v_BN_W := by
  simp [thrustGuidanceSystem, thrustMid]

lemma liftGS_Vehicle (env : Env) (m : RKRun) (dt : ℚ) (s : GuidState) :
    (liftGuidanceSystem env m dt s).Vehicle = s.Vehicle := by
  simp [liftGuidanceSystem, liftMid]

lemma liftGS_Lift (env : Env) (m : RKRun) (dt : ℚ) (s : GuidState) :
    (liftGuidanceSystem env m dt s).Lift =
      clampAbove
        (rkSolve m.tab (L_dot_ode (liftMid env dt s)) m.hs (s.time.headD 0)
          (s.Lift.headD 0))
        ((s.v_BN_W.headD 0) ^ 2 * s.Vehicle.K_Lmax) :: s.Lift := by
  simp [liftGuidanceSystem]

lemma headingGS_mu (env : Env) (dt : ℚ) (s : GuidState) :
    (headingGuidanceSystem env dt s).mu =
      (if |s.K_mu_p * (s.command.v_BN_W / env.const_gravity)
              * (s.command.sigma - s.sigma.headD 0)| > s.Vehicle.mu_max
       then np_sign (s.K_mu_p * (s.command.v_BN_W / env.const_gravity)
              * (s.command.sigma - s.sigma.headD 0)) * s.Vehicle.mu_max
       else s.K_mu_p * (s.command.v_BN_W / env.const_gravity)
              * (s.command.sigma - s.sigma.headD 0)) :: s.mu := by
  simp [headingGuidanceSystem, calculateMu]

lemma stepTime_Lift (env : Env) (mT mL : RKRun) (dtOpt : Option ℚ) (s : GuidState) :
    (stepTime env mT mL dtOpt s).Lift =
      (liftGuidanceSystem env mL (dtOpt.getD s.dt)
        (thrustGuidanceSystem mT (dtOpt.getD s.dt) s)).Lift := by
  simp [stepTime, getGuidanceCommands, commandNaNGuard, getEquationsOfMotion_Ideal,
    headingGuidanceSystem, UserCommand.save_history]

lemma stepTime_mu (env : Env) (mT mL : RKRun) (dtOpt : Option ℚ) (s : GuidState) :
    (stepTime env mT mL dtOpt s).mu =
      (headingGuidanceSystem env (dtOpt.getD s.dt)
        (liftGuidanceSystem env mL (dtOpt.getD s.dt)
          (thrustGuidanceSystem mT (dtOpt.getD s.dt) s))).mu := by
  simp [stepTime, getGuidanceCommands, commandNaNGuard, getEquationsOfMotion_Ideal,
    UserCommand.save_history]

lemma stepTime_len (env : Env) (mT mL : RKRun) (dtOpt : Option ℚ) (s : GuidState) :
    (stepTime env mT mL dtOpt s).time.length = s.time.length + 1 ∧
    (stepTime env mT mL dtOpt s).mass.length = s.mass.length + 1 ∧
    (stepTime env mT mL dtOpt s).v_BN_W.length = s.v_BN_W.length + 1 ∧
    (stepTime env mT mL dtOpt s).gamma.length = s.gamma.length + 1 ∧
    (stepTime env mT mL dtOpt s).sigma.length = s.sigma.length + 1 ∧
    (stepTime env mT mL dtOpt s).lat.length = s.lat.length + 1 ∧
    (stepTime env mT mL dtOpt s).lon.length = s.lon.length + 1 ∧
    (stepTime env mT mL dtOpt s).h.length = s.h.length + 1 ∧
    (stepTime env mT mL dtOpt s).airspeed.length = s.airspeed.length + 1 ∧
    (stepTime env mT mL dtOpt s).alpha.length = s.alpha.length + 1 ∧
    (stepTime env mT mL dtOpt s).drag.length = s.drag.length + 1 ∧
    (stepTime env mT mL dtOpt s).mu.length = s.mu.length + 1 ∧
    (stepTime env mT mL dtOpt s).Thrust.length = s.Thrust.length + 1 ∧
    (stepTime env mT mL dtOpt s).Lift.length = s.Lift.length + 1 := by
  refine ⟨?_, ?_, ?_, ?_, ?_, ?_, ?_, ?_, ?_, ?_, ?_, ?_, ?_, ?_⟩ <;>
    simp [stepTime, getGuidanceCommands, commandNaNGuard, getEquationsOfMotion_Ideal,
      headingGuidanceSystem, liftGuidanceSystem, liftMid, thrustGuidanceSystem, thrustMid,
      UserCommand.save_history]

lemma stepTime_allHistLen (env : Env) (mT mL : RKRun) (dtOpt : Option ℚ) (s : GuidState)
    (n : ℕ) (h : allHistLen s n) : allHistLen (stepTime env mT mL dtOpt s) (n + 1) := by
  obtain ⟨h1, h2, h3, h4, h5, h6, h7, h8, h9, h10, h11, h12, h13, h14⟩ := h
  obtain ⟨t1, t2, t3, t4, t5, t6, t7, t8, t9, t10, t11, t12, t13, t14⟩ :=
    stepTime_len env mT mL dtOpt s
  exact ⟨by rw [t1, h1], by rw [t2, h2], by rw [t3, h3], by rw [t4, h4], by rw [t5, h5],
    by rw [t6, h6], by rw [t7, h7], by rw [t8, h8], by rw [t9, h9], by rw [t10, h10],
    by rw [t11, h11], by rw [t12, h12], by rw [t13, h13], by rw [t14, h14]⟩

lemma runSteps_allHistLen (env : Env) :
    ∀ (ps : List StepParams) (s : GuidState) (n : ℕ),
      allHistLen s n → allHistLen (runSteps env ps s) (ps.length + n) := by
  intro ps
  induction ps with
  | nil => intro s n h; simpa [runSteps] using h
  | cons p ps ih =>
      intro s n h
      have hn : (p :: ps).length + n = ps.length + (n + 1) := by
        simp only [List.length_cons]
        omega
      rw [runSteps, hn]
      exact ih _ (n + 1) (stepTime_allHistLen env p.mT p.mL p.dt s n h)

lemma init_allHistLen (env : Env) (veh : FixedWingVehicle) (tf : TFConstants)
    (ic : InitialConditions) (t0 dt0 : ℚ) :
    allHistLen (init env veh tf ic t0 dt0) 1 := by
  simp [allHistLen, init]

lemma runSteps_Thrust_mem (env : Env) :
    ∀ (ps : List StepParams) (s : GuidState) (x : ℚ),
      x ∈ s.Thrust → x ∈ (runSteps env ps s).Thrust := by
  intro ps
  induction ps with
  | nil => intro s x hx; simpa [runSteps] using hx
  | cons p ps ih =>
      intro s x hx
      rw [runSteps]
      refine ih _ x ?_
      rw [stepTime_Thrust_cons]
      exact List.mem_cons_of_mem _ hx

lemma runSteps_mass_chain (env : Env) :
    ∀ (ps : List StepParams) (s : GuidState),
      0 ≤ s.Vehicle.Kf → (∀ p ∈ ps, 0 ≤ p.dt.getD s.dt) →
      (∀ x ∈ (runSteps env ps s).Thrust, 0 ≤ x) →
      List.Chain' (fun a b => a ≤ b) s.mass →
      List.Chain' (fun a b => a ≤ b) (runSteps env ps s).mass := by
  intro ps
  induction ps with
  | nil => intro s _ _ _ hc; simpa [runSteps] using hc
  | cons p ps ih =>
      intro s hKf hdt hT hc
      rw [runSteps] at hT ⊢
      refine ih _ ?_ ?_ hT ?_
      · rw [stepTime_Vehicle]
        exact hKf
      · intro q hq
        rw [stepTime_dtField]
        exact hdt q (List.mem_cons_of_mem _ hq)
      · have hT0 : 0 ≤ (stepTime env p.mT p.mL p.dt s).Thrust.headD 0 := by
          refine hT _ (runSteps_Thrust_mem env ps _ _ ?_)
          rw [stepTime_Thrust_cons]
          exact List.mem_cons_self _ _
        have hdt0 : 0 ≤ p.dt.getD s.dt := hdt p (List.mem_cons_self _ _)
        have hprod : 0 ≤ s.Vehicle.Kf * (stepTime env p.mT p.mL p.dt s).Thrust.headD 0
            * p.dt.getD s.dt := mul_nonneg (mul_nonneg hKf hT0) hdt0
        rw [stepTime_mass_eq]
        cases hm : s.mass with
        | nil => simp
        | cons m ms =>
            rw [hm] at hc
            rw [List.chain'_cons]
            constructor
            · simp only [List.headD_cons]
              linarith
            · exact hc

/-- C1 counterexample: after commanding a full stop from the freshly
constructed test engine, one step leaves a strictly negative vehicle
thrust, so the claimed invariant Thrust ∈ [0, T_max] fails (there is no
lower saturation at 0 in the thrust loop). -/
theorem C1_counterexample_thrust_negative :
    (stepTime testEnv eulerRun eulerRun none cexState).Thrust.headD 0 < 0 := by
  norm_num [stepTime, getGuidanceCommands, commandNaNGuard, getEquationsOfMotion_Ideal,
    headingGuidanceSystem, liftGuidanceSystem, liftMid, thrustGuidanceSystem, thrustMid,
    cexState, setCommandTrajectory, testState, init, testEnv, testVehicle, testTF, testIC,
    eulerRun, eulerTab, rkSolve, rkStep, rkStagesAux, dotProd, T_dot_ode, L_dot_ode,
    calculateMu, clampAbove, np_sign, calculateAlpha, calculateDrag, m_dot_ode,
    eom_ode, ecef_ode, UserCommand.save_history]

/-- C1 (amended): after every step the actuator outputs satisfy the upper
saturation bounds: Thrust ≤ T_max, Lift ≤ v² · K_Lmax at the last committed
inertial velocity, and, provided μ_max ≥ 0, |bank angle| ≤ μ_max; values
that would exceed a limit are clamped to the limit rather than rejected.
Thrust and Lift are not bounded below by 0 (see the counterexample). -/
theorem C1_saturation_upper_bounds (env : Env) (mT mL : RKRun) (dtOpt : Option ℚ)
    (s : GuidState) (hmu : 0 ≤ s.Vehicle.mu_max) :
    (stepTime env mT mL dtOpt s).Thrust.headD 0 ≤ s.Vehicle.T_max ∧
    (stepTime env mT mL dtOpt s).Lift.headD 0
      ≤ (s.v_BN_W.headD 0) ^ 2 * s.Vehicle.K_Lmax ∧
    |(stepTime env mT mL dtOpt s).mu.headD 0| ≤ s.Vehicle.mu_max := by
  refine ⟨?_, ?_, ?_⟩
  · rw [stepTime_Thrust_cons, List.headD_cons]
    exact clampAbove_le _ _
  · rw [stepTime_Lift, liftGS_Lift, List.headD_cons, thrustGS_v_BN_W, thrustGS_Vehicle]
    exact clampAbove_le _ _
  · rw [stepTime_mu, headingGS_mu, List.headD_cons, liftGS_Vehicle, thrustGS_Vehicle]
    exact abs_muClamp _ _ hmu

/-- Witness for C1 at the freshly constructed test engine. -/
theorem C1_saturation_witness :
    0 ≤ testState.Vehicle.mu_max ∧
    ((stepTime testEnv eulerRun eulerRun none testState).Thrust.headD 0
        ≤ testState.Vehicle.T_max ∧
     (stepTime testEnv eulerRun eulerRun none testState).Lift.headD 0
        ≤ (testState.v_BN_W.headD 0) ^ 2 * testState.Vehicle.K_Lmax ∧
     |(stepTime testEnv eulerRun eulerRun none testState).mu.headD 0|
        ≤ testState.Vehicle.mu_max) := by
  have hmu : 0 ≤ testState.Vehicle.mu_max := by
    norm_num [testState, init, testEnv, testVehicle, testTF, testIC]
  exact ⟨hmu, C1_saturation_upper_bounds testEnv eulerRun eulerRun none testState hmu⟩

/-- C2: after construction all fourteen time-indexed histories have length
one; a run of n steps leaves them all at length n + 1; and every single
step grows each of the fourteen histories by exactly one element. -/
theorem C2_history_lengths (env : Env) (veh : FixedWingVehicle) (tf : TFConstants)
    (ic : InitialConditions) (t0 dt0 : ℚ) (ps : List StepParams) :
    allHistLen (init env veh tf ic t0 dt0) 1 ∧
    allHistLen (runSteps env ps (init env veh tf ic t0 dt0)) (ps.length + 1) ∧
    ∀ (mT mL : RKRun) (dtOpt : Option ℚ) (s : GuidState),
      (stepTime env mT mL dtOpt s).time.length = s.time.length + 1 ∧
      (stepTime env mT mL dtOpt s).mass.length = s.mass.length + 1 ∧
      (stepTime env mT mL dtOpt s).v_BN_W.length = s.v_BN_W.length + 1 ∧
      (stepTime env mT mL dtOpt s).gamma.length = s.gamma.length + 1 ∧
      (stepTime env mT mL dtOpt s).sigma.length = s.sigma.length + 1 ∧
      (stepTime env mT mL dtOpt s).lat.length = s.lat.length + 1 ∧
      (stepTime env mT mL dtOpt s).lon.length = s.lon.length + 1 ∧
      (stepTime env mT mL dtOpt s).h.length = s.h.length + 1 ∧
      (stepTime env mT mL dtOpt s).airspeed.length = s.airspeed.length + 1 ∧
      (stepTime env mT mL dtOpt s).alpha.length = s.alpha.length + 1 ∧
      (stepTime env mT mL dtOpt s).drag.length = s.drag.length + 1 ∧
      (stepTime env mT mL dtOpt s).mu.length = s.mu.length + 1 ∧
      (stepTime env mT mL dtOpt s).Thrust.length = s.Thrust.length + 1 ∧
      (stepTime env mT mL dtOpt s).Lift.length = s.Lift.length + 1 := by
  refine ⟨init_allHistLen env veh tf ic t0 dt0, ?_, fun mT mL dtOpt s => stepTime_len env mT mL dtOpt s⟩
  exact runSteps_allHistLen env ps _ 1 (init_allHistLen env veh tf ic t0 dt0)

/-- C6: the bank/heading loop computes μ purely proportionally as
K_mu_p · (commanded velocity / g) · heading error, saturates it
sign-preservingly at μ_max, touches neither integral memory nor any
actuator history (no lag filter), and its output never depends on the
envelope constant ω_mu. -/
theorem C6_heading_proportional (env : Env) (dt : ℚ) (s : GuidState) (w : ℚ) :
    (headingGuidanceSystem env dt s).mu.headD 0 =
      (if |s.K_mu_p * (s.command.v_BN_W / env.const_gravity)
              * (s.command.sigma - s.sigma.headD 0)| > s.Vehicle.mu_max
       then np_sign (s.K_mu_p * (s.command.v_BN_W / env.const_gravity)
              * (s.command.sigma - s.sigma.headD 0)) * s.Vehicle.mu_max
       else s.K_mu_p * (s.command.v_BN_W / env.const_gravity)
              * (s.command.sigma - s.sigma.headD 0)) ∧
    (headingGuidanceSystem env dt s).xT = s.xT ∧
    (headingGuidanceSystem env dt s).xL = s.xL ∧
    (headingGuidanceSystem env dt s).Thrust = s.Thrust ∧
    (headingGuidanceSystem env dt s).Lift = s.Lift ∧
    (headingGuidanceSystem env dt s).Tc = s.Tc ∧
    (headingGuidanceSystem env dt s).Lc = s.Lc ∧
    (headingGuidanceSystem env dt
        { s with Vehicle := { s.Vehicle with omega_mu := w } }).mu
      = (headingGuidanceSystem env dt s).mu := by
  refine ⟨?_, ?_, ?_, ?_, ?_, ?_, ?_, ?_⟩ <;>
    simp [headingGuidanceSystem, calculateMu]

/-- C7: starting from construction, over any run whose committed thrust
history stays nonnegative while Kf ≥ 0 and every step size is positive,
the mass history is monotonically non-increasing step over step. -/
theorem C7_mass_monotone (env : Env) (veh : FixedWingVehicle) (tf : TFConstants)
    (ic : InitialConditions) (t0 dt0 : ℚ) (ps : List StepParams)
    (hKf : 0 ≤ veh.Kf)
    (hdt : ∀ p ∈ ps, 0 < p.dt.getD dt0)
    (hT : ∀ x ∈ (runSteps env ps (init env veh tf ic t0 dt0)).Thrust, 0 ≤ x) :
    List.Chain' (fun a b => a ≤ b) (runSteps env ps (init env veh tf ic t0 dt0)).mass := by
  refine runSteps_mass_chain env ps _ ?_ ?_ hT ?_
  · simpa [init] using hKf
  · intro p hp
    have := le_of_lt (hdt p hp)
    simpa [init] using this
  · simp [init]

/-- Witness for C7: one Euler step from the test engine with no command
change; the thrust history stays [0, 0] and the mass history is a
non-increasing chain. -/
theorem C7_mass_monotone_witness :
    0 ≤ testVehicle.Kf ∧
    (∀ p ∈ [testParams], 0 < p.dt.getD (1 : ℚ)) ∧
    (∀ x ∈ (runSteps testEnv [testParams]
        (init testEnv testVehicle testTF testIC 0 1)).Thrust, 0 ≤ x) ∧
    List.Chain' (fun a b => a ≤ b)
      (runSteps testEnv [testParams]
        (init testEnv testVehicle testTF testIC 0 1)).mass := by
  have h1 : 0 ≤ testVehicle.Kf := by norm_num [testVehicle]
  have h2 : ∀ p ∈ [testParams], 0 < p.dt.getD (1 : ℚ) := by
    intro p hp
    rw [List.mem_singleton] at hp
    subst hp
    norm_num [testParams]
  have h3 : ∀ x ∈ (runSteps testEnv [testParams]
      (init testEnv testVehicle testTF testIC 0 1)).Thrust, 0 ≤ x := by
    norm_num [runSteps, testParams, stepTime, getGuidanceCommands, commandNaNGuard,
      getEquationsOfMotion_Ideal, headingGuidanceSystem, liftGuidanceSystem, liftMid,
      thrustGuidanceSystem, thrustMid, init, testEnv, testVehicle, testTF, testIC,
      eulerRun, eulerTab, rkSolve, rkStep, rkStagesAux, dotProd, T_dot_ode, L_dot_ode,
      calculateMu, clampAbove, np_sign, calculateAlpha, calculateDrag, m_dot_ode,
      eom_ode, ecef_ode, UserCommand.save_history]
  exact ⟨h1, h2, h3, C7_mass_monotone testEnv testVehicle testTF testIC 0 1 [testParams]
    h1 h2 h3⟩

/-- C8: the code does not skip guidance when stepping before any trajectory
command was ever set: the NaN guard of getGuidanceCommands is identically
false on states built by the constructor (which seeds the command with the
finite initial conditions), so the first stepTime after construction runs
the guidance loops and appends a thrust entry instead of being a no-op. -/
theorem C8_first_step_not_skipped (env : Env) (mT mL : RKRun) (dtOpt : Option ℚ)
    (veh : FixedWingVehicle) (tf : TFConstants) (ic : InitialConditions) (t0 dt0 : ℚ) :
    commandNaNGuard (init env veh tf ic t0 dt0).command = false ∧
    (stepTime env mT mL dtOpt (init env veh tf ic t0 dt0)).Thrust.length = 2 := by
  constructor
  · rfl
  · rw [stepTime_Thrust_cons]
    simp [init]

/-- C9: within one step the error terms are recomputed from the state
committed at the end of the previous step (never from intermediate
integrator values of the current step), the bank angle is computed from
those committed values, the mass integration uses the thrust appended by
the guidance stage of the same step (guidance before EOM), the
commanded-trajectory history receives exactly the pre-step command, and
the clock advances by dt at the end. -/
theorem C9_step_ordering (env : Env) (mT mL : RKRun) (dtOpt : Option ℚ) (s : GuidState) :
    (stepTime env mT mL dtOpt s).V_err = s.command.v_BN_W - s.v_BN_W.headD 0 ∧
    (stepTime env mT mL dtOpt s).hdot_err
      = s.command.v_BN_W * (env.sin s.command.gamma - env.sin (s.gamma.headD 0)) ∧
    (stepTime env mT mL dtOpt s).sigma_err = s.command.sigma - s.sigma.headD 0 ∧
    (stepTime env mT mL dtOpt s).mu.headD 0 =
      (if |s.K_mu_p * (s.command.v_BN_W / env.const_gravity)
              * (s.command.sigma - s.sigma.headD 0)| > s.Vehicle.mu_max
       then np_sign (s.K_mu_p * (s.command.v_BN_W / env.const_gravity)
              * (s.command.sigma - s.sigma.headD 0)) * s.Vehicle.mu_max
       else s.K_mu_p * (s.command.v_BN_W / env.const_gravity)
              * (s.command.sigma - s.sigma.headD 0)) ∧
    (stepTime env mT mL dtOpt s).mass
      = (s.mass.headD 0
          + -1 * s.Vehicle.Kf * (stepTime env mT mL dtOpt s).Thrust.headD 0
            * dtOpt.getD s.dt) :: s.mass ∧
    (stepTime env mT mL dtOpt s).command.v_BN_W_history
      = s.command.v_BN_W :: s.command.v_BN_W_history ∧
    (stepTime env mT mL dtOpt s).command.gamma_history
      = s.command.gamma :: s.command.gamma_history ∧
    (stepTime env mT mL dtOpt s).command.sigma_history
      = s.command.sigma :: s.command.sigma_history ∧
    (stepTime env mT mL dtOpt s).time = (s.time.headD 0 + dtOpt.getD s.dt) :: s.time := by
  refine ⟨?_, ?_, ?_, ?_, stepTime_mass_eq env mT mL dtOpt s, ?_, ?_, ?_, ?_⟩ <;>
    simp [stepTime, getGuidanceCommands, commandNaNGuard, getEquationsOfMotion_Ideal,
      headingGuidanceSystem, liftGuidanceSystem, liftMid, thrustGuidanceSystem, thrustMid,
      UserCommand.save_history, calculateMu]

end FWNAPS
